import Mathlib

/-!
Verification of the request-planning core of SeisDB-scripts (`src/helpers.py`)
against its natural-language specification.

We shallowly embed the two components the spec calls GeoDomain and
WindowPlanner:

* `ComplexDomain` embeds the Python class `ComplexDomain` (helpers.py,
  lines 71-177): optional rectangular and circular bounds, the derived
  `rectangle_domain` / `circle_domain` flags, `get_query_parameters` and
  `is_in_domain`.  The geodesic-distance computation
  (`kilometers2degrees(gps2dist_azimuth(...)/1000)`) is an external
  floating-point collaborator, so `is_in_domain` is parameterised over a
  great-circle-distance-in-degrees function.

* `event_get_waveforms` embeds the planning part of the Python function of
  the same name (helpers.py, lines 180-272): the branch on the truthiness of
  `startrefphase` / `endrefphase`, the `np.arange(0, 181, radius_step)`
  distance loop, the skip/clip logic, and the two travel-time lookups per
  emitted annulus.  The TauPy travel-time model is an external collaborator
  and is passed in as a function `TauModel`; every call made to it is
  recorded in a trace so that claims about which lookups happen (and their
  arguments) can be stated.  Python exceptions (the `ValueError` of the
  mismatched-phase branch, numpy's error on a zero `arange` step, the
  `IndexError` of indexing an empty arrival list) are modelled as values of
  `PlanError`.

Numbers are embedded as rationals.  Note that an ObsPy `Origin` stores its
depth in meters (see `to_obspy_event`, helpers.py line 27), which is why the
code passes `origin.depth / 1000.0` as `source_depth_in_km`.
-/

namespace SeisDB

/-- Embeds the Python class `ComplexDomain.__init__` state: four optional
rectangle bounds and four optional circle parameters, all in degrees. -/
structure ComplexDomain where
  minlatitude : Option ℚ
  maxlatitude : Option ℚ
  minlongitude : Option ℚ
  maxlongitude : Option ℚ
  latitude : Option ℚ
  longitude : Option ℚ
  minradius : Option ℚ
  maxradius : Option ℚ
deriving DecidableEq

/-- Derived flag `self.rectangle_domain`: set iff all four rectangle bounds
are not `None` (helpers.py lines 121-127). -/
def ComplexDomain.rectangle_domain (d : ComplexDomain) : Bool :=
  d.minlatitude.isSome && d.maxlatitude.isSome &&
    d.minlongitude.isSome && d.maxlongitude.isSome

/-- Derived flag `self.circle_domain`: set iff all four circle parameters are
not `None` (helpers.py lines 122-129). -/
def ComplexDomain.circle_domain (d : ComplexDomain) : Bool :=
  d.latitude.isSome && d.longitude.isSome &&
    d.minradius.isSome && d.maxradius.isSome

/-- Embeds `ComplexDomain.get_query_parameters` (helpers.py lines 131-156).
The returned Python dict is modelled as an association list.  The `.getD 0`
accesses model Python's direct attribute reads, which the guarding flag
guarantees to be non-`None`. -/
def ComplexDomain.get_query_parameters (d : ComplexDomain) : List (String × ℚ) :=
  if d.rectangle_domain then
    [("minlatitude", d.minlatitude.getD 0),
     ("maxlatitude", d.maxlatitude.getD 0),
     ("minlongitude", d.minlongitude.getD 0),
     ("maxlongitude", d.maxlongitude.getD 0)]
  else if d.circle_domain then
    [("latitude", d.latitude.getD 0),
     ("longitude", d.longitude.getD 0),
     ("minradius", d.minradius.getD 0),
     ("maxradius", d.maxradius.getD 0)]
  else []

/-- Embeds `ComplexDomain.is_in_domain` (helpers.py lines 158-177).
`gcdistDeg center_lat center_lon lat lon` abstracts the composite
`kilometers2degrees(gps2dist_azimuth(self.latitude, self.longitude,
latitude, longitude)[0] / 1000.0)`, the great-circle distance in degrees
computed by the external geodesy collaborator. -/
def ComplexDomain.is_in_domain (gcdistDeg : ℚ → ℚ → ℚ → ℚ → ℚ)
    (d : ComplexDomain) (latitude longitude : ℚ) : Bool :=
  if d.rectangle_domain && d.circle_domain then
    let gcdist := gcdistDeg (d.latitude.getD 0) (d.longitude.getD 0) latitude longitude
    decide (d.minradius.getD 0 ≤ gcdist ∧ gcdist ≤ d.maxradius.getD 0)
  else true

/-- The event origin used by `event_get_waveforms`: an ObsPy `Origin` with
time, latitude, longitude in degrees and depth in METERS (ObsPy convention,
see `to_obspy_event`, helpers.py line 27). -/
structure Origin where
  time : ℚ
  latitude : ℚ
  longitude : ℚ
  depth : ℚ
deriving DecidableEq

/-- One arrival returned by `TauPyModel.get_travel_times`; only its `.time`
attribute (travel time in seconds) is used by the code. -/
structure Arrival where
  time : ℚ
deriving DecidableEq

/-- The external travel-time collaborator
`model.get_travel_times(source_depth_in_km, distance_in_degree, phase_list)`,
returning the ordered arrival list. -/
abbrev TauModel := ℚ → ℚ → List String → List Arrival

/-- A record of one call made to the travel-time collaborator, with the
exact arguments the code passes. -/
structure LookupCall where
  source_depth_in_km : ℚ
  distance_in_degree : ℚ
  phase_list : List String
deriving DecidableEq

/-- Embeds the time restriction `Restrictions(starttime=..., endtime=...)`
built by `event_get_waveforms`; only the two window endpoints matter to the
planning logic. -/
structure Restrictions where
  starttime : ℚ
  endtime : ℚ
deriving DecidableEq

/-- Python exceptions the planning code can raise, modelled as values:
`valueError` is the explicit `raise ValueError(msg)` of the mismatched-phase
branch; `zeroStepError` is the error numpy raises when `np.arange` is given a
zero step; `indexError` is the `IndexError` of `[0]` / `[-1]` on an empty
arrival list. -/
inductive PlanError where
  | valueError (msg : String)
  | zeroStepError
  | indexError
deriving DecidableEq

/-- The outcome of one planning call: either the ordered list of
(domain, restriction) request units or the exception raised, together with
the trace of all travel-time lookups performed (in order). -/
structure PlanOutcome where
  result : Except PlanError (List (ComplexDomain × Restrictions))
  calls : List LookupCall

/-- The numpy grid `np.arange(0, 181, step)` over rationals: the values `i * step` for
`0 ≤ i < max(⌈(181 - 0) / step⌉, 0)` (numpy's documented length formula);
empty for negative `step`.  The `step = 0` error case is handled by the
caller before this function is reached. -/
def np_arange_0_181 (step : ℚ) : List ℚ :=
  (List.range (Int.ceil ((181 : ℚ) / step)).toNat).map (fun i => (i : ℚ) * step)

/-- Python truthiness of the `startrefphase` / `endrefphase` arguments:
`None` and the empty phase list are falsy, a non-empty phase list is truthy. -/
def phaseGiven : Option (List String) → Bool
  | none => false
  | some phases => !phases.isEmpty

/-- The body of the `for radius in np.arange(0, 181, radius_step)` loop of
`event_get_waveforms` (helpers.py lines 243-269), processing the remaining
radii.  `units` and `calls` accumulate the emitted (domain, restriction)
pairs and the travel-time lookups already made.  A radius is skipped when
`radius + radius_step < minradius or radius > maxradius`; otherwise the code
indexes `get_travel_times(...)[0]` (IndexError if empty, else the first
arrival) and `get_travel_times(...)[-1]` (IndexError if empty, else the last
arrival) and emits a circular domain clipped to
`[max(radius, minradius), min(radius + radius_step, maxradius)]`. -/
def phaseLoop (taumodel : TauModel) (origin : Origin)
    (minradius maxradius : ℚ) (startrefphase endrefphase : List String)
    (startoffset endoffset radius_step : ℚ) :
    List ℚ → List (ComplexDomain × Restrictions) → List LookupCall → PlanOutcome
  | [], units, calls => ⟨.ok units, calls⟩
  | radius :: rest, units, calls =>
    if radius + radius_step < minradius ∨ radius > maxradius then
      phaseLoop taumodel origin minradius maxradius startrefphase endrefphase
        startoffset endoffset radius_step rest units calls
    else
      let dist1 := max radius minradius
      let call1 : LookupCall := ⟨origin.depth / 1000, dist1, startrefphase⟩
      let arrivals1 := taumodel (origin.depth / 1000) dist1 startrefphase
      if arrivals1.isEmpty then ⟨.error .indexError, calls ++ [call1]⟩
      else
        let starttime := origin.time + (arrivals1.headD ⟨0⟩).time + startoffset
        let dist2 := min (radius + radius_step) maxradius
        let call2 : LookupCall := ⟨origin.depth / 1000, dist2, endrefphase⟩
        let arrivals2 := taumodel (origin.depth / 1000) dist2 endrefphase
        if arrivals2.isEmpty then ⟨.error .indexError, calls ++ [call1, call2]⟩
        else
          let endtime := origin.time + (arrivals2.getLastD ⟨0⟩).time + endoffset
          let domain : ComplexDomain :=
            ⟨none, none, none, none, some origin.latitude, some origin.longitude,
             some dist1, some dist2⟩
          phaseLoop taumodel origin minradius maxradius startrefphase endrefphase
            startoffset endoffset radius_step rest
            (units ++ [(domain, ⟨starttime, endtime⟩)]) (calls ++ [call1, call2])

/-- Embeds the planning part of `event_get_waveforms` (helpers.py lines
180-272): building the parallel `domains` / `restrictions` lists (returned
here as a list of pairs) and the exception behaviour of the three branches.
The download loop that consumes the plan is the external Downloader
collaborator and is out of scope. -/
def event_get_waveforms (taumodel : TauModel) (origin : Origin)
    (minradius maxradius : ℚ)
    (startrefphase endrefphase : Option (List String))
    (startoffset endoffset radius_step : ℚ) : PlanOutcome :=
  if !phaseGiven startrefphase && !phaseGiven endrefphase then
    let domain : ComplexDomain :=
      ⟨none, none, none, none, some origin.latitude, some origin.longitude,
       some minradius, some maxradius⟩
    ⟨.ok [(domain, ⟨origin.time + startoffset, origin.time + endoffset⟩)], []⟩
  else if phaseGiven startrefphase && phaseGiven endrefphase then
    if radius_step = 0 then ⟨.error .zeroStepError, []⟩
    else
      phaseLoop taumodel origin minradius maxradius
        (startrefphase.getD []) (endrefphase.getD [])
        startoffset endoffset radius_step
        (np_arange_0_181 radius_step) [] []
  else
    ⟨.error (.valueError
      ("startrefphase and endrefphase must be either both or neither.")), []⟩

/-- The request unit the loop body emits for an unskipped radius, written
out once for use in specifications: the circular domain clipped to
`[max(radius, minradius), min(radius + radius_step, maxradius)]` and the
window anchored at the FIRST arrival for the start edge and the LAST
arrival for the end edge. -/
def emittedUnit (taumodel : TauModel) (origin : Origin)
    (minradius maxradius : ℚ) (startrefphase endrefphase : List String)
    (startoffset endoffset radius_step radius : ℚ) :
    ComplexDomain × Restrictions :=
  let dist1 := max radius minradius
  let dist2 := min (radius + radius_step) maxradius
  let firstArrival := (taumodel (origin.depth / 1000) dist1 startrefphase).headD ⟨0⟩
  let lastArrival := (taumodel (origin.depth / 1000) dist2 endrefphase).getLastD ⟨0⟩
  (⟨none, none, none, none, some origin.latitude, some origin.longitude,
    some dist1, some dist2⟩,
   ⟨origin.time + firstArrival.time + startoffset,
    origin.time + lastArrival.time + endoffset⟩)

/-- The two lookup calls the loop body makes for an unskipped radius, in
order: start edge then end edge. -/
def callsFor (origin : Origin) (minradius maxradius : ℚ)
    (startrefphase endrefphase : List String) (radius_step radius : ℚ) :
    List LookupCall :=
  [⟨origin.depth / 1000, max radius minradius, startrefphase⟩,
   ⟨origin.depth / 1000, min (radius + radius_step) maxradius, endrefphase⟩]

/-- The travel-time stub of the spec's test scenario: a single arrival at
`60 + 2·distance` seconds for any query, i.e. 60 s at distance 0, 120 s at
30, 180 s at 60, 240 s at 90. -/
def ttStub : TauModel := fun _ dist _ => [⟨60 + 2 * dist⟩]

/-- The origin of the spec's test scenario: time `T0`, latitude 10,
longitude 20, depth 10 km (stored as 10000 m, ObsPy convention). -/
def scenarioOrigin (T0 : ℚ) : Origin := ⟨T0, 10, 20, 10000⟩

/-- Characterization of the distance loop when the travel-time collaborator
always returns at least one arrival: it succeeds, emits exactly one clipped
request unit per unskipped radius (in grid order), and performs exactly the
start-edge and end-edge lookups for those radii. -/
theorem phaseLoop_ok (taumodel : TauModel) (origin : Origin)
    (minradius maxradius : ℚ) (sp ep : List String) (so eo step : ℚ)
    (hne : ∀ dist phases, taumodel (origin.depth / 1000) dist phases ≠ [])
    (rs : List ℚ) (units : List (ComplexDomain × Restrictions))
    (calls : List LookupCall) :
    phaseLoop taumodel origin minradius maxradius sp ep so eo step rs units calls =
      ⟨.ok (units ++ rs.filterMap (fun r =>
          if r + step < minradius ∨ r > maxradius then none
          else some (emittedUnit taumodel origin minradius maxradius sp ep so eo step r))),
       calls ++ rs.flatMap (fun r =>
          if r + step < minradius ∨ r > maxradius then []
          else callsFor origin minradius maxradius sp ep step r)⟩ := by
  induction rs generalizing units calls with
  | nil => simp [phaseLoop]
  | cons r rest ih =>
    by_cases h : r + step < minradius ∨ r > maxradius
    · simp only [phaseLoop, if_pos h, ih, List.filterMap_cons, List.flatMap_cons, h,
        ite_true, List.nil_append]
    · have h1 : (taumodel (origin.depth / 1000) (max r minradius) sp).isEmpty = false := by
        simp [List.isEmpty_eq_false, hne]
      have h2 : (taumodel (origin.depth / 1000)
          (min (r + step) maxradius) ep).isEmpty = false := by
        simp [List.isEmpty_eq_false, hne]
      simp only [phaseLoop, if_neg h, h1, h2, Bool.false_eq_true, ite_false, ih,
        List.filterMap_cons, List.flatMap_cons, h, ite_false, emittedUnit, callsFor,
        List.append_assoc, List.cons_append, List.nil_append, List.singleton_append]

/-- Every lookup call recorded by the distance loop passes
`origin.depth / 1000` as the source depth in kilometers. -/
theorem phaseLoop_calls_depth (taumodel : TauModel) (origin : Origin)
    (minradius maxradius : ℚ) (sp ep : List String) (so eo step : ℚ)
    (rs : List ℚ) (units : List (ComplexDomain × Restrictions))
    (calls : List LookupCall)
    (hcalls : ∀ c ∈ calls, c.source_depth_in_km = origin.depth / 1000) :
    ∀ c ∈ (phaseLoop taumodel origin minradius maxradius sp ep so eo step
        rs units calls).calls,
      c.source_depth_in_km = origin.depth / 1000 := by
  induction rs generalizing units calls with
  | nil => simpa [phaseLoop] using hcalls
  | cons r rest ih =>
    by_cases h : r + step < minradius ∨ r > maxradius
    · rw [phaseLoop, if_pos h]
      exact ih _ _ hcalls
    · rw [phaseLoop, if_neg h]
      by_cases h1 : (taumodel (origin.depth / 1000) (max r minradius) sp).isEmpty
      · simp only [h1, ite_true]
        intro c hc
        rcases List.mem_append.mp hc with hc | hc
        · exact hcalls c hc
        · simp at hc; simp [hc]
      · simp only [h1, Bool.false_eq_true, ite_false]
        by_cases h2 : (taumodel (origin.depth / 1000)
            (min (r + step) maxradius) ep).isEmpty
        · simp only [h2, ite_true]
          intro c hc
          rcases List.mem_append.mp hc with hc | hc
          · exact hcalls c hc
          · simp at hc
            rcases hc with rfl | rfl <;> rfl
        · simp only [h2, Bool.false_eq_true, ite_false]
          refine ih _ _ ?_
          intro c hc
          rcases List.mem_append.mp hc with hc | hc
          · exact hcalls c hc
          · simp at hc
            rcases hc with rfl | rfl <;> rfl

/-- The numpy grid for the default step 30: seven start edges, 0 to 180. -/
theorem arange30 : np_arange_0_181 30 = [0, 30, 60, 90, 120, 150, 180] := by
  have h7 : (Int.ceil ((181 : ℚ) / 30)).toNat = 7 := by
    have h : (Int.ceil ((181 : ℚ) / 30)) = 7 := by
      rw [Int.ceil_eq_iff]
      norm_num
    rw [h]
    rfl
  rw [np_arange_0_181, h7]
  simp [List.range_succ]
  norm_num

/-- For a negative step, `np.arange(0, 181, step)` is empty. -/
theorem arange_neg (step : ℚ) (h : step < 0) : np_arange_0_181 step = [] := by
  have h1 : (181 : ℚ) / step < 0 := div_neg_of_pos_of_neg (by norm_num) h
  have h2 : (Int.ceil ((181 : ℚ) / step)) ≤ 0 := by
    rw [Int.ceil_le]
    exact_mod_cast h1.le
  rw [np_arange_0_181, Int.toNat_of_nonpos h2]
  rfl

/-- The scenario stub never returns an empty arrival list. -/
theorem ttStub_ne (d : ℚ) : ∀ dist phases, ttStub d dist phases ≠ [] := by
  intro dist phases
  simp [ttStub]

/-- Full evaluation of the plan for the spec's test scenario (origin depth
10 km, `minradius = 0`, `maxradius = 90`, P reference phases, offsets −10
and +30, step 30): the code emits FOUR units — the three the spec expects
plus a degenerate `[90, 90]` annulus — and performs eight lookups. -/
theorem scenario_plan_eval (T0 : ℚ) :
    event_get_waveforms ttStub (scenarioOrigin T0) 0 90 (some ["P"]) (some ["P"])
        (-10) 30 30 =
      ⟨.ok [(⟨none, none, none, none, some 10, some 20, some 0, some 30⟩,
             ⟨T0 + 50, T0 + 150⟩),
            (⟨none, none, none, none, some 10, some 20, some 30, some 60⟩,
             ⟨T0 + 110, T0 + 210⟩),
            (⟨none, none, none, none, some 10, some 20, some 60, some 90⟩,
             ⟨T0 + 170, T0 + 270⟩),
            (⟨none, none, none, none, some 10, some 20, some 90, some 90⟩,
             ⟨T0 + 230, T0 + 270⟩)],
       [⟨10, 0, ["P"]⟩, ⟨10, 30, ["P"]⟩, ⟨10, 30, ["P"]⟩, ⟨10, 60, ["P"]⟩,
        ⟨10, 60, ["P"]⟩, ⟨10, 90, ["P"]⟩, ⟨10, 90, ["P"]⟩, ⟨10, 90, ["P"]⟩]⟩ := by
  rw [event_get_waveforms]
  norm_num [phaseGiven]
  rw [arange30, phaseLoop_ok _ _ _ _ _ _ _ _ _ (ttStub_ne _)]
  simp only [List.filterMap_cons, List.filterMap_nil, List.flatMap_cons, List.flatMap_nil]
  norm_num [emittedUnit, callsFor, ttStub, scenarioOrigin, max_def, min_def]
  ring_nf
  norm_num

/-- C8: a GeoDomain built with both a complete rectangle and a complete
circle returns exactly the four rectangle bounds from `queryParameters()`,
and its `isInDomain(lat, lon)` is true iff the great-circle distance in
degrees from the circle's center to the point lies in the closed interval
`[minradius, maxradius]` (independently of the rectangle); with only a
circle, `queryParameters()` returns the circle's four parameters and
`isInDomain` is constantly true; with neither bound, `queryParameters()` is
an empty mapping and `isInDomain` is constantly true. -/
theorem C8_domain_combination (gc : ℚ → ℚ → ℚ → ℚ → ℚ)
    (a b c d la lo mi ma lat lon : ℚ) :
    ((ComplexDomain.mk (some a) (some b) (some c) (some d)
        (some la) (some lo) (some mi) (some ma)).get_query_parameters =
      [("minlatitude", a), ("maxlatitude", b),
       ("minlongitude", c), ("maxlongitude", d)]) ∧
    (((ComplexDomain.mk (some a) (some b) (some c) (some d)
        (some la) (some lo) (some mi) (some ma)).is_in_domain gc lat lon = true) ↔
      (mi ≤ gc la lo lat lon ∧ gc la lo lat lon ≤ ma)) ∧
    ((ComplexDomain.mk none none none none
        (some la) (some lo) (some mi) (some ma)).get_query_parameters =
      [("latitude", la), ("longitude", lo), ("minradius", mi), ("maxradius", ma)]) ∧
    ((ComplexDomain.mk none none none none
        (some la) (some lo) (some mi) (some ma)).is_in_domain gc lat lon = true) ∧
    ((ComplexDomain.mk none none none none
        none none none none).get_query_parameters = []) ∧
    ((ComplexDomain.mk none none none none
        none none none none).is_in_domain gc lat lon = true) := by
  refine ⟨rfl, ?_, rfl, rfl, rfl, rfl⟩
  simp [ComplexDomain.is_in_domain, ComplexDomain.rectangle_domain,
    ComplexDomain.circle_domain]

/-- C9: with both reference phases absent, `plan()` returns exactly one
request unit whose domain is a pure circle at the origin with the configured
radii (no rectangle) and whose window is
`[origin.time + startoffset, origin.time + endoffset]`; the lookup-call
trace is empty, i.e. no travel-time lookup is made. -/
theorem C9_no_phase_path (taumodel : TauModel) (origin : Origin)
    (minradius maxradius so eo step : ℚ) :
    (event_get_waveforms taumodel origin minradius maxradius none none so eo step =
      ⟨.ok [(⟨none, none, none, none, some origin.latitude, some origin.longitude,
              some minradius, some maxradius⟩,
             ⟨origin.time + so, origin.time + eo⟩)], []⟩) ∧
    ((⟨none, none, none, none, some origin.latitude, some origin.longitude,
       some minradius, some maxradius⟩ : ComplexDomain).rectangle_domain = false) ∧
    ((⟨none, none, none, none, some origin.latitude, some origin.longitude,
       some minradius, some maxradius⟩ : ComplexDomain).circle_domain = true) :=
  ⟨rfl, rfl, rfl⟩

/-- C10: empty phase lists are falsy, so supplying `some []` for both
reference phases — or `none` for one and `some []` for the other — takes the
no-phase path: one origin-time-window unit, no lookup call, no error. -/
theorem C10_empty_phase_lists (taumodel : TauModel) (origin : Origin)
    (minradius maxradius so eo step : ℚ) :
    (event_get_waveforms taumodel origin minradius maxradius
        (some []) (some []) so eo step =
      ⟨.ok [(⟨none, none, none, none, some origin.latitude, some origin.longitude,
              some minradius, some maxradius⟩,
             ⟨origin.time + so, origin.time + eo⟩)], []⟩) ∧
    (event_get_waveforms taumodel origin minradius maxradius
        none (some []) so eo step =
      ⟨.ok [(⟨none, none, none, none, some origin.latitude, some origin.longitude,
              some minradius, some maxradius⟩,
             ⟨origin.time + so, origin.time + eo⟩)], []⟩) ∧
    (event_get_waveforms taumodel origin minradius maxradius
        (some []) none so eo step =
      ⟨.ok [(⟨none, none, none, none, some origin.latitude, some origin.longitude,
              some minradius, some maxradius⟩,
             ⟨origin.time + so, origin.time + eo⟩)], []⟩) :=
  ⟨rfl, rfl, rfl⟩

/-- C5: supplying exactly one of the two reference phases (the other being
absent) raises the `ValueError` whose message names both fields, and the
lookup-call trace is empty — the error precedes any travel-time lookup. -/
theorem C5_mismatched_phases (taumodel : TauModel) (origin : Origin)
    (minradius maxradius so eo step : ℚ)
    (startrefphase endrefphase : Option (List String))
    (h : (phaseGiven startrefphase = true ∧ endrefphase = none) ∨
         (startrefphase = none ∧ phaseGiven endrefphase = true)) :
    event_get_waveforms taumodel origin minradius maxradius
        startrefphase endrefphase so eo step =
      ⟨.error (.valueError
        ("startrefphase and endrefphase must be either both or neither.")), []⟩ := by
  have hnone : phaseGiven none = false := rfl
  rcases h with ⟨h1, rfl⟩ | ⟨rfl, h2⟩
  · simp [event_get_waveforms, h1, hnone]
  · simp [event_get_waveforms, h2, hnone]

/-- Witness for C5 at a concrete input: `startrefphase = ["P"]`,
`endrefphase` absent. -/
theorem C5_mismatched_phases_witness :
    ((phaseGiven (some ["P"]) = true ∧ (none : Option (List String)) = none) ∨
     ((some ["P"] : Option (List String)) = none ∧
        phaseGiven (none : Option (List String)) = true)) ∧
    event_get_waveforms ttStub (scenarioOrigin 0) 0 90 (some ["P"]) none (-10) 30 30 =
      ⟨.error (.valueError
        ("startrefphase and endrefphase must be either both or neither.")), []⟩ :=
  ⟨Or.inl ⟨rfl, rfl⟩,
   C5_mismatched_phases ttStub (scenarioOrigin 0) 0 90 (-10) 30 30 (some ["P"]) none
     (Or.inl ⟨rfl, rfl⟩)⟩

/-- C2: every travel-time lookup the planner performs — on any path, for
both the start-edge and the end-edge lookup of every annulus — passes
`origin.depth / 1000` as `source_depth_in_km`, i.e. the origin's depth
(stored in meters, ObsPy convention) expressed in kilometers. -/
theorem C2_lookup_depth_km (taumodel : TauModel) (origin : Origin)
    (minradius maxradius : ℚ) (startrefphase endrefphase : Option (List String))
    (so eo step : ℚ) :
    ∀ c ∈ (event_get_waveforms taumodel origin minradius maxradius
        startrefphase endrefphase so eo step).calls,
      c.source_depth_in_km = origin.depth / 1000 := by
  intro c hc
  rw [event_get_waveforms] at hc
  split at hc
  · simp at hc
  · split at hc
    · split at hc
      · simp at hc
      · exact phaseLoop_calls_depth taumodel origin minradius maxradius _ _ so eo step
          _ _ _ (by simp) c hc
    · simp at hc

/-- Witness for C2: in the spec's test scenario the first lookup call is the
start-edge lookup at distance 0, and its depth argument is the origin depth
(10000 m) over 1000, i.e. 10 km. -/
theorem C2_lookup_depth_km_witness :
    (⟨10, 0, ["P"]⟩ : LookupCall) ∈
      (event_get_waveforms ttStub (scenarioOrigin 0) 0 90 (some ["P"]) (some ["P"])
        (-10) 30 30).calls ∧
    (⟨10, 0, ["P"]⟩ : LookupCall).source_depth_in_km = (scenarioOrigin 0).depth / 1000 := by
  have hmem : (⟨10, 0, ["P"]⟩ : LookupCall) ∈
      (event_get_waveforms ttStub (scenarioOrigin 0) 0 90 (some ["P"]) (some ["P"])
        (-10) 30 30).calls := by
    rw [scenario_plan_eval]
    simp
  exact ⟨hmem,
    C2_lookup_depth_km ttStub (scenarioOrigin 0) 0 90 (some ["P"]) (some ["P"])
      (-10) 30 30 _ hmem⟩

/-- With non-empty phase lists and a non-zero step, `event_get_waveforms`
takes the phase-reference branch: the distance loop over the numpy grid. -/
theorem event_get_waveforms_phase_path (taumodel : TauModel) (origin : Origin)
    (minradius maxradius : ℚ) (sp ep : List String) (so eo step : ℚ)
    (hsp : sp ≠ []) (hep : ep ≠ []) (hstep : step ≠ 0) :
    event_get_waveforms taumodel origin minradius maxradius
        (some sp) (some ep) so eo step =
      phaseLoop taumodel origin minradius maxradius sp ep so eo step
        (np_arange_0_181 step) [] [] := by
  have h1 : phaseGiven (some sp) = true := by
    simp [phaseGiven, List.isEmpty_eq_false, hsp]
  have h2 : phaseGiven (some ep) = true := by
    simp [phaseGiven, List.isEmpty_eq_false, hep]
  simp [event_get_waveforms, h1, h2, hstep]

/-- C6: on the phase-reference path a candidate radius from the grid is
emitted iff not (`radius + radius_step < minradius` or
`radius > maxradius`), and the emitted domain's radius interval is exactly
`[max(radius, minradius), min(radius + radius_step, maxradius)]`; in
particular with `minradius = 40, maxradius = 70, radius_step = 30` the
emitted bands are `[40, 60]` and `[60, 70]` — the first starts exactly at 40
and the last ends exactly at 70. -/
theorem C6_skip_and_clip (taumodel : TauModel) (origin : Origin)
    (minradius maxradius : ℚ) (sp ep : List String) (so eo step : ℚ)
    (hsp : sp ≠ []) (hep : ep ≠ []) (hstep : step ≠ 0)
    (hne : ∀ dist phases, taumodel (origin.depth / 1000) dist phases ≠ []) :
    ((event_get_waveforms taumodel origin minradius maxradius
        (some sp) (some ep) so eo step).result.map
        (List.map (fun u => (u.1.minradius, u.1.maxradius))) =
      .ok ((np_arange_0_181 step).filterMap (fun r =>
          if r + step < minradius ∨ r > maxradius then none
          else some (some (max r minradius), some (min (r + step) maxradius))))) ∧
    ((event_get_waveforms ttStub (scenarioOrigin 0) 40 70
        (some ["P"]) (some ["P"]) 0 0 30).result.map
        (List.map (fun u => (u.1.minradius, u.1.maxradius))) =
      .ok [(some 40, some 60), (some 60, some 70)]) := by
  constructor
  · rw [event_get_waveforms_phase_path taumodel origin minradius maxradius sp ep
        so eo step hsp hep hstep,
      phaseLoop_ok taumodel origin minradius maxradius sp ep so eo step hne]
    simp only [List.nil_append, Except.map, List.map_filterMap]
    refine congrArg _ (congrArg (fun f => List.filterMap f (np_arange_0_181 step))
      (funext fun r => ?_))
    by_cases hc : r + step < minradius ∨ r > maxradius
    · simp [hc]
    · simp [hc, emittedUnit]
  · rw [event_get_waveforms_phase_path ttStub (scenarioOrigin 0) 40 70
        ["P"] ["P"] 0 0 30 (by simp) (by simp) (by norm_num),
      phaseLoop_ok ttStub (scenarioOrigin 0) 40 70 ["P"] ["P"] 0 0 30 (ttStub_ne _),
      arange30]
    simp only [List.filterMap_cons, List.filterMap_nil]
    norm_num [emittedUnit, max_def, min_def, Except.map]

/-- Witness for C6 at the scenario stub and origin with
`minradius = 40, maxradius = 70, radius_step = 30`. -/
theorem C6_skip_and_clip_witness :
    ((["P"] : List String) ≠ [] ∧ (30 : ℚ) ≠ 0 ∧
      ∀ dist phases, ttStub ((scenarioOrigin 0).depth / 1000) dist phases ≠ []) ∧
    (((event_get_waveforms ttStub (scenarioOrigin 0) 40 70
        (some ["P"]) (some ["P"]) 0 0 30).result.map
        (List.map (fun u => (u.1.minradius, u.1.maxradius))) =
      .ok ((np_arange_0_181 30).filterMap (fun r =>
          if r + 30 < 40 ∨ r > 70 then none
          else some (some (max r 40), some (min (r + 30) 70))))) ∧
    ((event_get_waveforms ttStub (scenarioOrigin 0) 40 70
        (some ["P"]) (some ["P"]) 0 0 30).result.map
        (List.map (fun u => (u.1.minradius, u.1.maxradius))) =
      .ok [(some 40, some 60), (some 60, some 70)])) :=
  ⟨⟨by simp, by norm_num, ttStub_ne _⟩,
   C6_skip_and_clip ttStub (scenarioOrigin 0) 40 70 ["P"] ["P"] 0 0 30
     (by simp) (by simp) (by norm_num) (ttStub_ne _)⟩

/-- C7: on the phase-reference path, each emitted unit's `starttime` is
`origin.time` plus the travel time of the FIRST arrival returned at distance
`max(radius, minradius)` for the start phases plus `startoffset`, and its
`endtime` is `origin.time` plus the travel time of the LAST arrival returned
at distance `min(radius + radius_step, maxradius)` for the end phases plus
`endoffset` (`headD` / `getLastD` are the first and last arrival — the
hypothesis `hne` makes the lists non-empty). -/
theorem C7_window_from_arrivals (taumodel : TauModel) (origin : Origin)
    (minradius maxradius : ℚ) (sp ep : List String) (so eo step : ℚ)
    (hsp : sp ≠ []) (hep : ep ≠ []) (hstep : step ≠ 0)
    (hne : ∀ dist phases, taumodel (origin.depth / 1000) dist phases ≠ []) :
    (event_get_waveforms taumodel origin minradius maxradius
        (some sp) (some ep) so eo step).result.map
        (List.map (fun u => (u.2.starttime, u.2.endtime))) =
      .ok ((np_arange_0_181 step).filterMap (fun r =>
          if r + step < minradius ∨ r > maxradius then none
          else some
            (origin.time +
              ((taumodel (origin.depth / 1000) (max r minradius) sp).headD ⟨0⟩).time + so,
             origin.time +
              ((taumodel (origin.depth / 1000)
                (min (r + step) maxradius) ep).getLastD ⟨0⟩).time + eo))) := by
  rw [event_get_waveforms_phase_path taumodel origin minradius maxradius sp ep
      so eo step hsp hep hstep,
    phaseLoop_ok taumodel origin minradius maxradius sp ep so eo step hne]
  simp only [List.nil_append, Except.map, List.map_filterMap]
  refine congrArg _ (congrArg (fun f => List.filterMap f (np_arange_0_181 step))
    (funext fun r => ?_))
  by_cases hc : r + step < minradius ∨ r > maxradius
  · simp [hc]
  · simp [hc, emittedUnit]

/-- Witness for C7 at the spec's test scenario. -/
theorem C7_window_from_arrivals_witness :
    ((["P"] : List String) ≠ [] ∧ (30 : ℚ) ≠ 0 ∧
      ∀ dist phases, ttStub ((scenarioOrigin 0).depth / 1000) dist phases ≠ []) ∧
    (event_get_waveforms ttStub (scenarioOrigin 0) 0 90
        (some ["P"]) (some ["P"]) (-10) 30 30).result.map
        (List.map (fun u => (u.2.starttime, u.2.endtime))) =
      .ok ((np_arange_0_181 30).filterMap (fun r =>
          if r + 30 < 0 ∨ r > 90 then none
          else some
            ((scenarioOrigin 0).time +
              ((ttStub ((scenarioOrigin 0).depth / 1000) (max r 0) ["P"]).headD ⟨0⟩).time
                + (-10),
             (scenarioOrigin 0).time +
              ((ttStub ((scenarioOrigin 0).depth / 1000)
                (min (r + 30) 90) ["P"]).getLastD ⟨0⟩).time + 30))) :=
  ⟨⟨by simp, by norm_num, ttStub_ne _⟩,
   C7_window_from_arrivals ttStub (scenarioOrigin 0) 0 90 ["P"] ["P"] (-10) 30 30
     (by simp) (by simp) (by norm_num) (ttStub_ne _)⟩

/-- Counterexample to C1: with `minradius = 0, maxradius = 180,
radius_step = 30` the plan has SEVEN units, not six (the grid
`np.arange(0, 181, 30)` ends at 180 and `180 > maxradius` is false, so a
degenerate `[180, 180]` annulus is emitted); with `maxradius = 90` it has
FOUR units, not three. -/
theorem C1_counterexample :
    ¬((event_get_waveforms ttStub (scenarioOrigin 0) 0 180 (some ["P"]) (some ["P"])
        0 0 30).result.map List.length = Except.ok 6) ∧
    ¬((event_get_waveforms ttStub (scenarioOrigin 0) 0 90 (some ["P"]) (some ["P"])
        (-10) 30 30).result.map List.length = Except.ok 3) := by
  constructor
  · rw [event_get_waveforms_phase_path ttStub (scenarioOrigin 0) 0 180
        ["P"] ["P"] 0 0 30 (by simp) (by simp) (by norm_num),
      phaseLoop_ok ttStub (scenarioOrigin 0) 0 180 ["P"] ["P"] 0 0 30 (ttStub_ne _),
      arange30]
    simp only [List.filterMap_cons, List.filterMap_nil]
    norm_num [Except.map]
  · rw [scenario_plan_eval 0]
    simp [Except.map]

/-- C1 amended: with `minradius = 0, maxradius = 180, radius_step = 30` the
returned sequence's clipped radius intervals are contiguous and
non-overlapping and cover `[0, 180]`, but in SEVEN steps, the last being the
degenerate interval `[180, 180]`; with `minradius = 0, maxradius = 90` and
both reference phases set (the spec's scenario: depth 10 km, offsets −10 and
+30, stub arrival `60 + 2·distance`), the plan has FOUR units with radius
bands `[0, 30]`, `[30, 60]`, `[60, 90]`, `[90, 90]` and windows
`[T0+50, T0+150]`, `[T0+110, T0+210]`, `[T0+170, T0+270]`,
`[T0+230, T0+270]`. -/
theorem C1_amended (T0 : ℚ) :
    ((event_get_waveforms ttStub (scenarioOrigin T0) 0 180 (some ["P"]) (some ["P"])
        0 0 30).result.map (List.map (fun u => (u.1.minradius, u.1.maxradius))) =
      .ok [(some 0, some 30), (some 30, some 60), (some 60, some 90),
           (some 90, some 120), (some 120, some 150), (some 150, some 180),
           (some 180, some 180)]) ∧
    (event_get_waveforms ttStub (scenarioOrigin T0) 0 90 (some ["P"]) (some ["P"])
        (-10) 30 30 =
      ⟨.ok [(⟨none, none, none, none, some 10, some 20, some 0, some 30⟩,
             ⟨T0 + 50, T0 + 150⟩),
            (⟨none, none, none, none, some 10, some 20, some 30, some 60⟩,
             ⟨T0 + 110, T0 + 210⟩),
            (⟨none, none, none, none, some 10, some 20, some 60, some 90⟩,
             ⟨T0 + 170, T0 + 270⟩),
            (⟨none, none, none, none, some 10, some 20, some 90, some 90⟩,
             ⟨T0 + 230, T0 + 270⟩)],
       [⟨10, 0, ["P"]⟩, ⟨10, 30, ["P"]⟩, ⟨10, 30, ["P"]⟩, ⟨10, 60, ["P"]⟩,
        ⟨10, 60, ["P"]⟩, ⟨10, 90, ["P"]⟩, ⟨10, 90, ["P"]⟩, ⟨10, 90, ["P"]⟩]⟩) := by
  constructor
  · rw [event_get_waveforms_phase_path ttStub (scenarioOrigin T0) 0 180
        ["P"] ["P"] 0 0 30 (by simp) (by simp) (by norm_num),
      phaseLoop_ok ttStub (scenarioOrigin T0) 0 180 ["P"] ["P"] 0 0 30 (ttStub_ne _),
      arange30]
    simp only [List.filterMap_cons, List.filterMap_nil]
    norm_num [emittedUnit, max_def, min_def, Except.map]
  · exact scenario_plan_eval T0

/-- Counterexample to C3: with `minradius = 50 > maxradius = 40` and
`radius_step = 30`, the grid radius 30 satisfies neither skip condition
(`30 + 30 < 50` and `30 > 40` are both false), so the plan is NOT empty — a
degenerate annulus clipped to `[50, 40]` is emitted. -/
theorem C3_counterexample :
    (event_get_waveforms ttStub (scenarioOrigin 0) 50 40 (some ["P"]) (some ["P"])
        0 0 30).result ≠ Except.ok [] := by
  rw [event_get_waveforms_phase_path ttStub (scenarioOrigin 0) 50 40
      ["P"] ["P"] 0 0 30 (by simp) (by simp) (by norm_num),
    phaseLoop_ok ttStub (scenarioOrigin 0) 50 40 ["P"] ["P"] 0 0 30 (ttStub_ne _),
    arange30]
  simp only [List.filterMap_cons, List.filterMap_nil]
  norm_num

/-- C3 amended: with `minradius > maxradius` on the phase-reference path the
planner raises no error (given that the lookups succeed), but the result is
empty exactly when every grid radius satisfies a skip condition; an annulus
whose band straddles both bounds (`radius + radius_step ≥ minradius` and
`radius ≤ maxradius`) is still emitted, as a degenerate clipped unit. -/
theorem C3_amended (taumodel : TauModel) (origin : Origin)
    (minradius maxradius : ℚ) (sp ep : List String) (so eo step : ℚ)
    (hminmax : minradius > maxradius)
    (hsp : sp ≠ []) (hep : ep ≠ []) (hstep : step ≠ 0)
    (hne : ∀ dist phases, taumodel (origin.depth / 1000) dist phases ≠ []) :
    ∃ units, (event_get_waveforms taumodel origin minradius maxradius
        (some sp) (some ep) so eo step).result = .ok units ∧
      (units = [] ↔ ∀ r ∈ np_arange_0_181 step,
        r + step < minradius ∨ r > maxradius) := by
  rw [event_get_waveforms_phase_path taumodel origin minradius maxradius sp ep
      so eo step hsp hep hstep,
    phaseLoop_ok taumodel origin minradius maxradius sp ep so eo step hne]
  refine ⟨_, rfl, ?_⟩
  simp only [List.nil_append, List.filterMap_eq_nil_iff]
  constructor
  · intro h r hr
    have hh := h r hr
    by_contra hc
    simp [hc] at hh
  · intro h r hr
    simp [h r hr]

/-- Witness for C3 amended at `minradius = 50, maxradius = 40,
radius_step = 30` with the scenario stub (where the plan is non-empty, so
both sides of the iff are false). -/
theorem C3_amended_witness :
    ((50 : ℚ) > 40 ∧ (["P"] : List String) ≠ [] ∧ (30 : ℚ) ≠ 0 ∧
      ∀ dist phases, ttStub ((scenarioOrigin 0).depth / 1000) dist phases ≠ []) ∧
    ∃ units, (event_get_waveforms ttStub (scenarioOrigin 0) 50 40
        (some ["P"]) (some ["P"]) 0 0 30).result = .ok units ∧
      (units = [] ↔ ∀ r ∈ np_arange_0_181 30, r + 30 < 50 ∨ r > 40) :=
  ⟨⟨by norm_num, by simp, by norm_num, ttStub_ne _⟩,
   C3_amended ttStub (scenarioOrigin 0) 50 40 ["P"] ["P"] 0 0 30
     (by norm_num) (by simp) (by simp) (by norm_num) (ttStub_ne _)⟩

/-- Counterexample to C4: the code performs no validation of
`minradius > 180` or non-positive `radius_step`.  With `minradius = 200`
the call succeeds and even emits one (degenerate) unit; with
`radius_step = -5` the grid is empty and the call succeeds with an empty
plan.  In neither case is any error raised. -/
theorem C4_counterexample :
    ((event_get_waveforms ttStub (scenarioOrigin 0) 200 180 (some ["P"]) (some ["P"])
        0 0 30).result.map List.length = Except.ok 1) ∧
    ((event_get_waveforms ttStub (scenarioOrigin 0) 0 180 (some ["P"]) (some ["P"])
        0 0 (-5)).result = Except.ok []) := by
  constructor
  · rw [event_get_waveforms_phase_path ttStub (scenarioOrigin 0) 200 180
        ["P"] ["P"] 0 0 30 (by simp) (by simp) (by norm_num),
      phaseLoop_ok ttStub (scenarioOrigin 0) 200 180 ["P"] ["P"] 0 0 30 (ttStub_ne _),
      arange30]
    simp only [List.filterMap_cons, List.filterMap_nil]
    norm_num [Except.map]
  · rw [event_get_waveforms_phase_path ttStub (scenarioOrigin 0) 0 180
        ["P"] ["P"] 0 0 (-5) (by simp) (by simp) (by norm_num),
      arange_neg (-5) (by norm_num)]
    rfl

/-- C4 amended: no `ConfigurationError` exists.  A negative `radius_step`
makes the phase-path grid empty, so the plan is `ok []` with no lookup; a
zero `radius_step` aborts with numpy's `arange` error (before any lookup),
which is not a configuration check; and `minradius > 180` raises no error at
all — the call still returns an `ok` plan whenever the lookups succeed. -/
theorem C4_amended (taumodel : TauModel) (origin : Origin)
    (minradius maxradius : ℚ) (sp ep : List String) (so eo : ℚ)
    (hsp : sp ≠ []) (hep : ep ≠ []) :
    (∀ step : ℚ, step < 0 →
      event_get_waveforms taumodel origin minradius maxradius
          (some sp) (some ep) so eo step = ⟨.ok [], []⟩) ∧
    (event_get_waveforms taumodel origin minradius maxradius
        (some sp) (some ep) so eo 0 = ⟨.error .zeroStepError, []⟩) ∧
    (∀ step : ℚ, step ≠ 0 → minradius > 180 →
      (∀ dist phases, taumodel (origin.depth / 1000) dist phases ≠ []) →
      ∃ units, (event_get_waveforms taumodel origin minradius maxradius
          (some sp) (some ep) so eo step).result = .ok units) := by
  have h1 : phaseGiven (some sp) = true := by
    simp [phaseGiven, List.isEmpty_eq_false, hsp]
  have h2 : phaseGiven (some ep) = true := by
    simp [phaseGiven, List.isEmpty_eq_false, hep]
  refine ⟨?_, ?_, ?_⟩
  · intro step hstep
    rw [event_get_waveforms_phase_path taumodel origin minradius maxradius sp ep
        so eo step hsp hep (ne_of_lt hstep),
      arange_neg step hstep]
    rfl
  · simp [event_get_waveforms, h1, h2]
  · intro step hstep hmin hne
    rw [event_get_waveforms_phase_path taumodel origin minradius maxradius sp ep
        so eo step hsp hep hstep,
      phaseLoop_ok taumodel origin minradius maxradius sp ep so eo step hne]
    exact ⟨_, rfl⟩

/-- Witness for C4 amended at concrete inputs (`step = -5`, `step = 0`, and
`minradius = 200` with `step = 30`). -/
theorem C4_amended_witness :
    ((["P"] : List String) ≠ []) ∧
    ((∀ step : ℚ, step < 0 →
      event_get_waveforms ttStub (scenarioOrigin 0) 200 180
          (some ["P"]) (some ["P"]) 0 0 step = ⟨.ok [], []⟩) ∧
    (event_get_waveforms ttStub (scenarioOrigin 0) 200 180
        (some ["P"]) (some ["P"]) 0 0 0 = ⟨.error .zeroStepError, []⟩) ∧
    (∀ step : ℚ, step ≠ 0 → (200 : ℚ) > 180 →
      (∀ dist phases, ttStub ((scenarioOrigin 0).depth / 1000) dist phases ≠ []) →
      ∃ units, (event_get_waveforms ttStub (scenarioOrigin 0) 200 180
          (some ["P"]) (some ["P"]) 0 0 step).result = .ok units)) :=
  ⟨by simp,
   C4_amended ttStub (scenarioOrigin 0) 200 180 ["P"] ["P"] 0 0
     (by simp) (by simp)⟩

end SeisDB
